import Mathlib

/-!
# Verification of the `uber-earnings` exporter

Shallow embedding of the repository (src/main.rs, src/lib.rs, src/serde.rs):
a CLI that fetches a paginated earnings-activity feed, flattens each
activity into a CSV row, and streams the rows to a file or stdout.

Modelling decisions, all taken from the source:
* `src/serde.rs` structs become Lean structures with the same fields;
  JSON serialization of `ActivityRequest` follows serde's derived
  `Serialize` with `rename_all = "camelCase"`: struct fields are emitted
  in declaration order, and an `Option` field without a
  `skip_serializing_if` attribute is emitted as JSON `null` when `None`.
* The pagination loop of `main` (src/main.rs lines 64-137) becomes
  `runLoop`, driven by a list of step outcomes: each loop iteration sends
  one request and observes either a transport error (`send()?` fails), a
  decode error (`res.json()?` fails), or a decoded `ActivityFeedResponse`.
* The `csv::Writer` becomes `CsvWriter`: `write_record` appends to an
  internal buffer (csv's `Writer` buffers; nothing reaches the underlying
  destination until a flush), `flush` moves the buffer to the destination.
  `csv::Writer` also flushes its buffer from its `Drop` impl, so when
  `main` returns early through `?` the buffered records still reach the
  destination; the model applies `flushWriter` on those early-return paths.
  The ghost field `written` records every record ever passed to
  `write_record`, so "everything written has reached the destination"
  is expressible as `dest = written`.
* `DateTime<Utc>` is epoch seconds (`Int`); the two environment-dependent
  renderings `recognized_at.with_timezone(&Local).date_naive().to_string()`
  and `...time().to_string()` are abstract function parameters
  `localDate localTime : Int → String` of the model.
* `println!` output is collected in `stdoutLines`; `main`'s return value
  (`Ok(())` versus an error propagated by `?`) is `RunResult`.
-/

namespace UberEarnings

/-! ## JSON values (target of serde serialization) -/

/-- The fragment of JSON produced when serializing an `ActivityRequest`. -/
inductive Json where
  | null
  | str (s : String)
  | obj (fields : List (String × Json))

/-- The value under `key` of a JSON object, if any. -/
def jsonLookup (key : String) : Json → Option Json
  | .obj fields => fields.lookup key
  | _ => none

/-- Whether a JSON object has the given key at all. -/
def hasKey (key : String) (j : Json) : Bool :=
  (jsonLookup key j).isSome

/-- The keys of a JSON object, in emission order. -/
def jsonKeys : Json → List String
  | .obj fields => fields.map Prod.fst
  | _ => []

/-! ## Request model (src/serde.rs lines 50-64) -/

/-- `chrono::NaiveDate` (year, month, day); the model covers the
non-negative years exercised by this program. -/
structure NaiveDate where
  year : Nat
  month : Nat
  day : Nat
deriving DecidableEq, Repr

/-- Zero-pad a number to the given width, as chrono's `%Y`/`%m`/`%d` do. -/
def padNum (width n : Nat) : String :=
  let s := toString n
  String.mk (List.replicate (width - s.length) '0') ++ s

/-- `iso_date_format::serialize`: a date rendered as `%Y-%m-%d`. -/
def formatIsoDate (d : NaiveDate) : String :=
  padNum 4 d.year ++ "-" ++ padNum 2 d.month ++ "-" ++ padNum 2 d.day

/-- `PaginationOption` (src/serde.rs line 62). -/
structure PaginationOption where
  cursor : String
deriving DecidableEq, Repr

/-- `ActivityRequest` (src/serde.rs line 52). -/
structure ActivityRequest where
  start_date_iso : NaiveDate
  end_date_iso : NaiveDate
  pagination_option : Option PaginationOption
deriving DecidableEq, Repr

/-- Serde-derived serialization of `PaginationOption` (camelCase). -/
def serializePaginationOption (p : PaginationOption) : Json :=
  .obj [("cursor", .str p.cursor)]

/-- Serde-derived serialization of `ActivityRequest` with
`rename_all = "camelCase"`: fields in declaration order; the
`pagination_option` field carries no `skip_serializing_if` attribute, so
serde emits `"paginationOption": null` when the option is `None`. -/
def serializeActivityRequest (r : ActivityRequest) : Json :=
  .obj [("startDateIso", .str (formatIsoDate r.start_date_iso)),
        ("endDateIso", .str (formatIsoDate r.end_date_iso)),
        ("paginationOption",
          match r.pagination_option with
          | none => Json.null
          | some p => serializePaginationOption p)]

/-! ## Response model (src/serde.rs lines 66-129) -/

/-- `FailureData` (src/serde.rs line 76). -/
structure FailureData where
  message : String
deriving DecidableEq, Repr

/-- `Pagination` (src/serde.rs line 126). -/
structure Pagination where
  has_more_data : Bool
  next_cursor : Option String
deriving DecidableEq, Repr

/-- `Routing` (src/serde.rs line 104). -/
structure Routing where
  webview_url : String
deriving DecidableEq, Repr

/-- `BreakdownDetails` (src/serde.rs line 110). -/
structure BreakdownDetails where
  formatted_tip : String
deriving DecidableEq, Repr

/-- `TripMetaData` (src/serde.rs line 116). -/
structure TripMetaData where
  formatted_duration : String
  formatted_distance : String
  pickup_address : String
  drop_off_address : String
  map_url : String
deriving DecidableEq, Repr

/-- `Activity` (src/serde.rs line 89); `recognized_at` is the UTC
timestamp in epoch seconds (`utc_timestamp` codec). -/
structure Activity where
  uuid : String
  type_ : String
  recognized_at : Int
  activity_title : String
  formatted_total : String
  routing : Routing
  breakdown_details : Option BreakdownDetails
  trip_meta_data : Option TripMetaData
deriving DecidableEq, Repr

/-- `SuccessData` (src/serde.rs line 82). -/
structure SuccessData where
  activities : Option (List Activity)
  pagination : Pagination
deriving DecidableEq, Repr

/-- `ActivityFeedResponse` (src/serde.rs line 69): union tagged on
`status`, variants `failure` and `success`. -/
inductive ActivityFeedResponse where
  | Failure (data : FailureData)
  | Success (data : SuccessData)
deriving DecidableEq, Repr

/-! ## The CSV writer (csv::Writer over the chosen destination) -/

/-- Model of `csv::Writer`: `buffer` is its internal buffer, `dest` the
records that have reached the underlying destination, and `written` a
ghost log of every record ever passed to `write_record`. -/
structure CsvWriter where
  buffer : List (List String)
  dest : List (List String)
  written : List (List String)
deriving DecidableEq, Repr

/-- A freshly created writer over an empty destination. -/
def emptyWriter : CsvWriter := ⟨[], [], []⟩

/-- `write_record`: the record goes to the internal buffer, not yet to
the destination. -/
def writeRecord (w : CsvWriter) (r : List String) : CsvWriter :=
  { w with buffer := w.buffer ++ [r], written := w.written ++ [r] }

/-- `flush` (also performed by `csv::Writer`'s `Drop` impl): the buffered
records reach the destination. -/
def flushWriter (w : CsvWriter) : CsvWriter :=
  { w with dest := w.dest ++ w.buffer, buffer := [] }

/-- The header record written at src/main.rs lines 45-48. -/
def headerRecord : List String :=
  ["UUID", "Type", "Date", "Time", "Title", "Total", "Url", "Tip",
   "Duration", "Distance", "Pickup", "DropOff", "MapUrl"]

/-! ## Row projection (src/main.rs lines 92-132) -/

/-- The 13-field record built for one activity inside the for-loop at
src/main.rs lines 92-132.  `localDate`/`localTime` stand for the
local-timezone renderings of `recognized_at`. -/
def projectRow (localDate localTime : Int → String) (a : Activity) :
    List String :=
  [a.uuid,
   a.type_,
   localDate a.recognized_at,
   localTime a.recognized_at,
   a.activity_title,
   a.formatted_total,
   a.routing.webview_url,
   (match a.breakdown_details with
    | none => ""
    | some breakdown => breakdown.formatted_tip),
   (match a.trip_meta_data with
    | none => ""
    | some meta => meta.formatted_duration),
   (match a.trip_meta_data with
    | none => ""
    | some meta => meta.formatted_distance),
   (match a.trip_meta_data with
    | none => ""
    | some meta => meta.pickup_address),
   (match a.trip_meta_data with
    | none => ""
    | some meta => meta.drop_off_address),
   (match a.trip_meta_data with
    | none => ""
    | some meta => meta.map_url)]

/-- The `if let Some(activities) = data.activities { for ... }` block:
each activity of the page, in order, is projected and written. -/
def writePage (localDate localTime : Int → String) (w : CsvWriter) :
    Option (List Activity) → CsvWriter
  | none => w
  | some acts => acts.foldl (fun w a => writeRecord w (projectRow localDate localTime a)) w

/-! ## The pagination loop (src/main.rs lines 64-141) -/

/-- What one loop iteration observes after sending its request:
`send()?` fails, `res.json()?` fails, or a decoded response. -/
inductive StepOutcome where
  | transportError
  | decodeError
  | response (r : ActivityFeedResponse)
deriving DecidableEq, Repr

/-- How `main` returns: `ok` is `Ok(())` (process exit status 0); the
error cases are the `?` early returns; `hung` means the loop wanted to
send another request but the environment list was exhausted (the model's
stand-in for a network call that never completes). -/
inductive RunResult where
  | ok
  | configError
  | transportError
  | decodeError
  | hung
deriving DecidableEq, Repr

/-- Observable trace of the loop: final writer, stdout lines printed,
how `main` returned, the requests sent in order, and a snapshot of the
writer right after each successful page's activities were handed to it. -/
structure RunTrace where
  writer : CsvWriter
  stdoutLines : List String
  result : RunResult
  requests : List ActivityRequest
  pageSnapshots : List CsvWriter
deriving DecidableEq, Repr

/-- The request built at src/main.rs lines 68-72:
`cursor.take().map(|cursor| PaginationOption { cursor })`. -/
def mkRequest (sd ed : NaiveDate) (cursor : Option String) : ActivityRequest :=
  { start_date_iso := sd, end_date_iso := ed,
    pagination_option := cursor.map (fun c => ⟨c⟩) }

/-- The `while has_more_data` loop of `main` (src/main.rs lines 67-137)
followed by the `writer.flush()?` at line 139.  State: the
`has_more_data` flag, the `cursor` option, the writer, stdout so far.
On a `Failure` response the message is printed via `println!` and
`has_more_data` is set to false (after which the loop exits and flushes);
on `Success` the page is written, then
`has_more_data = data.pagination.has_more_data` and
`cursor = data.pagination.next_cursor`.  Transport and decode errors
propagate out of `main` via `?`; the writer is then dropped, and
`csv::Writer::drop` flushes its buffer. -/
def runLoop (sd ed : NaiveDate) (localDate localTime : Int → String) :
    List StepOutcome → Bool → Option String → CsvWriter → List String → RunTrace
  | _, false, _, w, out =>
      { writer := flushWriter w, stdoutLines := out, result := .ok,
        requests := [], pageSnapshots := [] }
  | [], true, cursor, w, out =>
      { writer := w, stdoutLines := out, result := .hung,
        requests := [mkRequest sd ed cursor], pageSnapshots := [] }
  | .transportError :: _, true, cursor, w, out =>
      { writer := flushWriter w, stdoutLines := out, result := .transportError,
        requests := [mkRequest sd ed cursor], pageSnapshots := [] }
  | .decodeError :: _, true, cursor, w, out =>
      { writer := flushWriter w, stdoutLines := out, result := .decodeError,
        requests := [mkRequest sd ed cursor], pageSnapshots := [] }
  | .response (.Failure data) :: rest, true, cursor, w, out =>
      let t := runLoop sd ed localDate localTime rest false none w
        (out ++ ["Error: " ++ data.message])
      { t with requests := mkRequest sd ed cursor :: t.requests }
  | .response (.Success data) :: rest, true, cursor, w, out =>
      let w2 := writePage localDate localTime w data.activities
      let t := runLoop sd ed localDate localTime rest
        data.pagination.has_more_data data.pagination.next_cursor w2 out
      { t with requests := mkRequest sd ed cursor :: t.requests,
               pageSnapshots := w2 :: t.pageSnapshots }

/-! ## `main` (src/main.rs lines 35-142) -/

/-- Result of the session lookup (`read_session_from_file` /
`read_session_from_config_file`): a session string, or a
configuration error (file not found / unreadable). -/
inductive SessionResult where
  | ok (session : String)
  | err
deriving DecidableEq, Repr

/-- Observable outcome of `main`. -/
structure MainResult where
  writer : CsvWriter
  stdoutLines : List String
  result : RunResult
  requests : List ActivityRequest
  pageSnapshots : List CsvWriter
  headers : List (String × String)
deriving DecidableEq, Repr

/-- The default headers installed on the client (src/main.rs lines
56-58): the fixed CSRF token and the session string as the `Cookie`
header, verbatim. -/
def buildHeaders (session : String) : List (String × String) :=
  [("x-csrf-token", "x"), ("Cookie", session)]

/-- `main` after argument parsing and writer creation: the header record
is written first (src/main.rs lines 45-48), then the session is read
(lines 50-54; on error, `?` returns early with the writer dropped and
therefore drop-flushed, before any request), then the client headers are
built and the pagination loop runs with `has_more_data = true`,
`cursor = None`. -/
def mainModel (sd ed : NaiveDate) (localDate localTime : Int → String)
    (session : SessionResult) (outcomes : List StepOutcome) : MainResult :=
  let w := writeRecord emptyWriter headerRecord
  match session with
  | .err =>
      { writer := flushWriter w, stdoutLines := [], result := .configError,
        requests := [], pageSnapshots := [], headers := [] }
  | .ok s =>
      let t := runLoop sd ed localDate localTime outcomes true none w []
      { writer := t.writer, stdoutLines := t.stdoutLines, result := t.result,
        requests := t.requests, pageSnapshots := t.pageSnapshots,
        headers := buildHeaders s }

/-! ## Session file parsing (src/lib.rs lines 33-44) -/

/-- Split at `"\n"` and `"\r\n"` line terminators, as Rust
`str::lines` does before its final-line rule; a `'\r'` not followed by
`'\n'` is ordinary content. -/
def splitNewline : List Char → List (List Char)
  | [] => [[]]
  | '\r' :: '\n' :: rest => [] :: splitNewline rest
  | '\n' :: rest => [] :: splitNewline rest
  | c :: rest =>
      match splitNewline rest with
      | [] => [[c]]
      | l :: ls => (c :: l) :: ls

/-- Rust `str::lines`: no line for the empty string, and a final line
terminator produces no trailing empty line. -/
def rustLines (s : String) : List String :=
  if s.data.isEmpty then []
  else
    let pieces := splitNewline s.data
    let pieces := if s.data.getLast? = some '\n' then pieces.dropLast else pieces
    pieces.map String.mk

/-- Rust `str::trim` (restricted to the ASCII whitespace this program's
session files contain). -/
def rustTrim (s : String) : String :=
  String.mk (((s.data.dropWhile Char.isWhitespace).reverse.dropWhile
    Char.isWhitespace).reverse)

/-- Rust `[&str]::join(";")`. -/
def joinSemi : List String → String
  | [] => ""
  | [l] => l
  | l :: ls => l ++ ";" ++ joinSemi ls

/-- `read_session_from_file` (src/lib.rs lines 33-44) on a readable
file with the given contents: trim, split into lines, join with `";"`. -/
def read_session_from_file (contents : String) : String :=
  joinSemi (rustLines (rustTrim contents))

/-! ## Concrete fixtures used by witnesses and counterexamples -/

/-- A concrete start date, 2024-01-01. -/
def date1 : NaiveDate := ⟨2024, 1, 1⟩

/-- A concrete end date, 2024-01-31. -/
def date2 : NaiveDate := ⟨2024, 1, 31⟩

/-- A concrete local-date rendering, standing in for the system zone. -/
def exD : Int → String := fun _ => "2024-01-01"

/-- A concrete local-time rendering, standing in for the system zone. -/
def exT : Int → String := fun _ => "12:06:40"

/-- The activity of the spec's Scenario A: no optional sub-records. -/
def act1 : Activity :=
  { uuid := "abc", type_ := "trip", recognized_at := 1704100000,
    activity_title := "Trip", formatted_total := "$12.00",
    routing := ⟨"https://x"⟩, breakdown_details := none,
    trip_meta_data := none }

/-- An activity with both optional sub-records present. -/
def act2 : Activity :=
  { uuid := "def", type_ := "trip", recognized_at := 1704100100,
    activity_title := "Trip 2", formatted_total := "$8.00",
    routing := ⟨"https://y"⟩, breakdown_details := some ⟨"$2.00"⟩,
    trip_meta_data := some ⟨"10 min", "2.5 mi", "A St", "B St", "https://m"⟩ }

/-- Page 1 of the spec's Scenario B: more data, cursor `"p2"`. -/
def page1 : SuccessData :=
  { activities := some [act1],
    pagination := { has_more_data := true, next_cursor := some "p2" } }

/-- Page 2 of the spec's Scenario B: last page. -/
def page2 : SuccessData :=
  { activities := some [act2],
    pagination := { has_more_data := false, next_cursor := none } }

/-- The two-page response sequence of the spec's Scenario B. -/
def outcomesB : List StepOutcome :=
  [.response (.Success page1), .response (.Success page2)]

/-- The response sequence of the spec's P5: one page with two
activities, then a `Failure` with message `"quota exceeded"`. -/
def outcomesP5 : List StepOutcome :=
  [.response (.Success ⟨some [act1, act2],
      ⟨true, some "p2"⟩⟩),
   .response (.Failure ⟨"quota exceeded"⟩)]

/-! ## Helper lemmas about the loop and the writer -/

/-- When `has_more_data` is false the loop body never runs: the writer
is flushed (src/main.rs line 139) and `main` returns `Ok(())`. -/
lemma runLoop_hm_false (sd ed : NaiveDate) (f g : Int → String)
    (outcomes : List StepOutcome) (c : Option String) (w : CsvWriter)
    (out : List String) :
    runLoop sd ed f g outcomes false c w out =
      { writer := flushWriter w, stdoutLines := out, result := .ok,
        requests := [], pageSnapshots := [] } := by
  cases outcomes with
  | nil => rfl
  | cons o rest => cases o with
    | transportError => rfl
    | decodeError => rfl
    | response r => cases r <;> rfl

/-- As long as the loop continues, the first request it sends is built
from the currently held cursor. -/
lemma runLoop_requests_zero (sd ed : NaiveDate) (f g : Int → String)
    (outcomes : List StepOutcome) (c : Option String) (w : CsvWriter)
    (out : List String) :
    ((runLoop sd ed f g outcomes true c w out).requests)[0]? =
      some (mkRequest sd ed c) := by
  cases outcomes with
  | nil => rfl
  | cons o rest => cases o with
    | transportError => rfl
    | decodeError => rfl
    | response r => cases r <;> simp [runLoop]

/-- One unfolding step of the loop on a `Success` response: the request
built from the held cursor is followed by the requests of the
continuation, which starts from the response's pagination fields. -/
lemma runLoop_success_requests (sd ed : NaiveDate) (f g : Int → String)
    (d : SuccessData) (rest : List StepOutcome) (c : Option String)
    (w : CsvWriter) (out : List String) :
    (runLoop sd ed f g (.response (.Success d) :: rest) true c w out).requests =
      mkRequest sd ed c ::
        (runLoop sd ed f g rest d.pagination.has_more_data
          d.pagination.next_cursor (writePage f g w d.activities)
          out).requests := by
  simp [runLoop]

/-- `write_record` preserves the accounting between the buffer, the
destination and the ghost log. -/
lemma writeRecord_inv (w : CsvWriter) (r : List String)
    (h : w.dest ++ w.buffer = w.written) :
    (writeRecord w r).dest ++ (writeRecord w r).buffer = (writeRecord w r).written := by
  simp [writeRecord, ← h]

/-- Writing a page of activities preserves the writer accounting. -/
lemma writePage_inv (f g : Int → String) (acts : Option (List Activity))
    (w : CsvWriter) (h : w.dest ++ w.buffer = w.written) :
    (writePage f g w acts).dest ++ (writePage f g w acts).buffer =
      (writePage f g w acts).written := by
  cases acts with
  | none => exact h
  | some rows =>
      induction rows generalizing w with
      | nil => exact h
      | cons a rows ih => exact ih _ (writeRecord_inv _ _ h)

/-- A flushed writer has an empty buffer and a destination holding
exactly the ghost log. -/
lemma flushWriter_dest (w : CsvWriter) (h : w.dest ++ w.buffer = w.written) :
    (flushWriter w).dest = (flushWriter w).written ∧
      (flushWriter w).buffer = [] := by
  simp [flushWriter, h]

/-- Whenever the loop terminates (any result other than `hung`), the
writer it leaves behind is fully flushed: the destination holds exactly
the records written. -/
lemma runLoop_flushed (sd ed : NaiveDate) (f g : Int → String)
    (outcomes : List StepOutcome) :
    ∀ (hm : Bool) (c : Option String) (w : CsvWriter) (out : List String),
      w.dest ++ w.buffer = w.written →
      (runLoop sd ed f g outcomes hm c w out).result ≠ RunResult.hung →
      (runLoop sd ed f g outcomes hm c w out).writer.dest =
          (runLoop sd ed f g outcomes hm c w out).writer.written ∧
        (runLoop sd ed f g outcomes hm c w out).writer.buffer = [] := by
  induction outcomes with
  | nil =>
      intro hm c w out hinv hres
      cases hm with
      | false => simpa [runLoop_hm_false] using flushWriter_dest w hinv
      | true => exact absurd rfl hres
  | cons o rest ih =>
      intro hm c w out hinv hres
      cases hm with
      | false => simpa [runLoop_hm_false] using flushWriter_dest w hinv
      | true =>
          cases o with
          | transportError => simpa [runLoop] using flushWriter_dest w hinv
          | decodeError => simpa [runLoop] using flushWriter_dest w hinv
          | response r =>
              cases r with
              | Failure d =>
                  simpa [runLoop] using flushWriter_dest w hinv
              | Success d =>
                  simp only [runLoop] at hres ⊢
                  exact ih _ _ _ _ (writePage_inv f g d.activities w hinv) hres

/-! ## Claims -/

/-- Claim C6 (confirmed): if a `Success` response carries
`has_more_data = true` and no `next_cursor`, the loop issues the next
request, and that request carries no cursor (`pagination_option` in the
absent state) — pagination restarts instead of failing or stopping. -/
theorem restart_on_absent_cursor (sd ed : NaiveDate) (f g : Int → String)
    (acts : Option (List Activity)) (rest : List StepOutcome)
    (c : Option String) (w : CsvWriter) (out : List String) :
    ((runLoop sd ed f g
        (.response (.Success ⟨acts, ⟨true, none⟩⟩) :: rest)
        true c w out).requests)[1]? = some (mkRequest sd ed none) ∧
      (mkRequest sd ed none).pagination_option = none := by
  refine ⟨?_, rfl⟩
  simp only [runLoop]
  rw [List.getElem?_cons_succ]
  exact runLoop_requests_zero sd ed f g rest none _ out

/-- Claim C7 (confirmed): row projection is total (a Lean function, and
the row always has 13 fields); an activity lacking `breakdown_details`
gets an empty Tip field, one lacking `trip_meta_data` gets empty
Duration/Distance/Pickup/DropOff/MapUrl fields, and a present sub-record
has its field values copied verbatim into those positions. -/
theorem projectRow_defaults (f g : Int → String) (a : Activity) :
    (projectRow f g a).length = 13 ∧
    (a.breakdown_details = none → (projectRow f g a)[7]? = some "") ∧
    (∀ b, a.breakdown_details = some b →
      (projectRow f g a)[7]? = some b.formatted_tip) ∧
    (a.trip_meta_data = none →
      ((projectRow f g a)[8]? = some "" ∧ (projectRow f g a)[9]? = some "" ∧
       (projectRow f g a)[10]? = some "" ∧ (projectRow f g a)[11]? = some "" ∧
       (projectRow f g a)[12]? = some "")) ∧
    (∀ m, a.trip_meta_data = some m →
      ((projectRow f g a)[8]? = some m.formatted_duration ∧
       (projectRow f g a)[9]? = some m.formatted_distance ∧
       (projectRow f g a)[10]? = some m.pickup_address ∧
       (projectRow f g a)[11]? = some m.drop_off_address ∧
       (projectRow f g a)[12]? = some m.map_url)) := by
  refine ⟨rfl, ?_, ?_, ?_, ?_⟩
  · intro hb; simp [projectRow, hb]
  · intro b hb; simp [projectRow, hb]
  · intro ht; simp [projectRow, ht]
  · intro m ht; simp [projectRow, ht]

/-- Witness for C7 at concrete activities: a present breakdown's tip is
copied, an absent trip record yields an empty Duration field. -/
theorem projectRow_defaults_witness :
    (projectRow exD exT act2)[7]? = some "$2.00" ∧
      (projectRow exD exT act1)[8]? = some "" := by
  refine ⟨?_, ?_⟩
  · exact (projectRow_defaults exD exT act2).2.2.1 ⟨"$2.00"⟩ rfl
  · exact ((projectRow_defaults exD exT act1).2.2.2.1 rfl).1

/-- Claim C8 (confirmed): on the sequence [Success with two activities,
Failure "quota exceeded"], the destination ends up holding the header
record followed by exactly the two data rows, stdout carries the failure
message, and `main` returns `Ok(())` — not a crash with zero output. -/
theorem streaming_on_failure :
    (mainModel date1 date2 exD exT (.ok "s") outcomesP5).writer.dest =
      [headerRecord,
       ["abc", "trip", "2024-01-01", "12:06:40", "Trip", "$12.00",
        "https://x", "", "", "", "", "", ""],
       ["def", "trip", "2024-01-01", "12:06:40", "Trip 2", "$8.00",
        "https://y", "$2.00", "10 min", "2.5 mi", "A St", "B St",
        "https://m"]] ∧
    (mainModel date1 date2 exD exT (.ok "s") outcomesP5).stdoutLines =
      ["Error: quota exceeded"] ∧
    (mainModel date1 date2 exD exT (.ok "s") outcomesP5).result =
      RunResult.ok := by
  decide

/-- Claim C9 (confirmed): `read_session_from_file` does not hand back
the raw file contents; it trims them and joins the lines with `";"`
(so `sid=A` / `scid=B` on two lines become `sid=A;scid=B`), and the
resulting string is exactly what `main` installs as the `Cookie`
header. -/
theorem session_file_join :
    read_session_from_file "sid=A\nscid=B\n" = "sid=A;scid=B" ∧
    read_session_from_file "  sid=A\r\nscid=B \n" = "sid=A;scid=B" ∧
    read_session_from_file "sid=A\nscid=B\n" ≠ "sid=A\nscid=B\n" ∧
    ∀ (sd ed : NaiveDate) (f g : Int → String) (contents : String)
      (outcomes : List StepOutcome),
      ("Cookie", read_session_from_file contents) ∈
        (mainModel sd ed f g (.ok (read_session_from_file contents))
          outcomes).headers := by
  refine ⟨by decide, by decide, by decide, ?_⟩
  intro sd ed f g contents outcomes
  simp [mainModel, buildHeaders]

/-- Claim C10 (confirmed): the header record is written before the
session lookup, so when the session lookup fails the run aborts with a
configuration error, no request is ever issued, and the destination
holds exactly the header row and no data rows. -/
theorem header_before_session (sd ed : NaiveDate) (f g : Int → String)
    (outcomes : List StepOutcome) :
    (mainModel sd ed f g .err outcomes).writer.dest = [headerRecord] ∧
    (mainModel sd ed f g .err outcomes).requests = [] ∧
    (mainModel sd ed f g .err outcomes).result = RunResult.configError :=
  ⟨rfl, rfl, rfl⟩

/-- Claim C1 is refuted: the very first request of a run is built while
no cursor is held (`pagination_option = none`), yet its serialized body
does contain the `paginationOption` key — serde's derived `Serialize`
has no `skip_serializing_if` on the field, so `None` is emitted as
`null`, not omitted. -/
theorem pagination_key_counterexample :
    (mainModel date1 date2 exD exT (.ok "sid=A") []).requests =
      [{ start_date_iso := date1, end_date_iso := date2,
         pagination_option := none }] ∧
    hasKey "paginationOption"
      (serializeActivityRequest
        { start_date_iso := date1, end_date_iso := date2,
          pagination_option := none }) = true := by
  exact ⟨by decide, rfl⟩

/-- Claim C1 (corrected): every request built by the pagination loop
serializes to an object whose keys are exactly `startDateIso`,
`endDateIso`, `paginationOption`; the `paginationOption` key is always
present — bound to `null` when no cursor is held, and to
`{ cursor: <the held cursor> }` when one is. -/
theorem pagination_option_encoding (sd ed : NaiveDate)
    (f g : Int → String) (sess : SessionResult)
    (outcomes : List StepOutcome) (req : ActivityRequest)
    (_h : req ∈ (mainModel sd ed f g sess outcomes).requests) :
    jsonKeys (serializeActivityRequest req) =
      ["startDateIso", "endDateIso", "paginationOption"] ∧
    jsonLookup "paginationOption" (serializeActivityRequest req) =
      some (match req.pagination_option with
            | none => Json.null
            | some p => Json.obj [("cursor", Json.str p.cursor)]) := by
  cases hp : req.pagination_option <;>
    simp [serializeActivityRequest, serializePaginationOption, jsonKeys,
      jsonLookup, hp, List.lookup]

/-- Witness for the corrected C1: the cursorless first request of a
concrete run serializes with the `paginationOption` key bound to
`null`. -/
theorem pagination_option_encoding_witness :
    jsonKeys (serializeActivityRequest
        { start_date_iso := date1, end_date_iso := date2,
          pagination_option := none }) =
      ["startDateIso", "endDateIso", "paginationOption"] ∧
    jsonLookup "paginationOption"
      (serializeActivityRequest
        { start_date_iso := date1, end_date_iso := date2,
          pagination_option := none }) = some Json.null :=
  pagination_option_encoding date1 date2 exD exT (.ok "sid=A") []
    { start_date_iso := date1, end_date_iso := date2,
      pagination_option := none } (by decide)

/-- Claim C2 is refuted on its exit-status part: after a well-formed
`Failure` response, `main` returns `Ok(())` — modeled as
`RunResult.ok`, exit status 0 — so the process does not signal
non-success to its caller; the message itself is printed with
`println!`, i.e. to standard output, not to a separate error channel. -/
theorem failure_exit_counterexample :
    (mainModel date1 date2 exD exT (.ok "sid=A")
        [.response (.Failure ⟨"quota exceeded"⟩)]).result = RunResult.ok ∧
    (mainModel date1 date2 exD exT (.ok "sid=A")
        [.response (.Failure ⟨"quota exceeded"⟩)]).stdoutLines =
      ["Error: quota exceeded"] := by
  decide

/-- Claim C2 (corrected): when a response decodes to the `Failure`
variant, the failure message is printed to standard output (prefixed
`Error: `), the loop terminates without issuing any further request —
whatever responses would follow — the writer is flushed, and `main`
returns `Ok(())`, i.e. the process exits successfully rather than
signalling non-success. -/
theorem failure_terminates_loop (sd ed : NaiveDate) (f g : Int → String)
    (msg : String) (rest : List StepOutcome) (c : Option String)
    (w : CsvWriter) (out : List String) :
    runLoop sd ed f g (.response (.Failure ⟨msg⟩) :: rest) true c w out =
      { writer := flushWriter w,
        stdoutLines := out ++ ["Error: " ++ msg],
        result := .ok,
        requests := [mkRequest sd ed c],
        pageSnapshots := [] } := by
  simp [runLoop, runLoop_hm_false]

/-- Claim C3 is refuted on its per-page part: in a concrete two-page
run, the writer snapshots taken right after each page is handed to the
sink show an empty destination (`dest = []`) while the ghost log
records the header and the page rows — the rows sit in the csv writer's
buffer, nothing has been flushed to the destination yet. -/
theorem per_page_flush_counterexample :
    ((mainModel date1 date2 exD exT (.ok "s") outcomesB).pageSnapshots.map
        (fun w => (w.dest, w.written))) =
      [([], [headerRecord, projectRow exD exT act1]),
       ([], [headerRecord, projectRow exD exT act1,
             projectRow exD exT act2])] := by
  decide

/-- Claim C3 (corrected): the destination is not flushed after each
page; it is flushed when `main` terminates — on normal completion and
`ServiceFailure` via the explicit `flush`, on `TransportError`,
`DecodeError` and configuration errors via the csv writer's drop — so
at every termination the destination holds exactly the records written
before the point of termination and the buffer is empty. -/
theorem flush_on_termination (sd ed : NaiveDate) (f g : Int → String)
    (sess : SessionResult) (outcomes : List StepOutcome)
    (h : (mainModel sd ed f g sess outcomes).result ≠ RunResult.hung) :
    (mainModel sd ed f g sess outcomes).writer.dest =
        (mainModel sd ed f g sess outcomes).writer.written ∧
      (mainModel sd ed f g sess outcomes).writer.buffer = [] := by
  cases sess with
  | err => exact ⟨rfl, rfl⟩
  | ok s =>
      simp only [mainModel] at h ⊢
      exact runLoop_flushed sd ed f g outcomes true none _ [] rfl h

/-- Witness for the corrected C3: a concrete two-page run terminates
normally, and its destination equals the full log of written records
with an empty buffer. -/
theorem flush_on_termination_witness :
    (mainModel date1 date2 exD exT (.ok "s") outcomesB).writer.dest =
        (mainModel date1 date2 exD exT (.ok "s") outcomesB).writer.written ∧
      (mainModel date1 date2 exD exT (.ok "s") outcomesB).writer.buffer =
        [] :=
  flush_on_termination date1 date2 exD exT (.ok "s") outcomesB (by decide)

/-- Claim C4 (confirmed): whenever the loop issues a request number
`n+1` (zero-based: position `n+1` of the request trace), outcome `n`
was a `Success` response and the cursor carried by request `n+1` is
exactly that response's `next_cursor` — present if and only if the
response carried one.  Only the most recent response's cursor is ever
sent, and `cursor.take()` clears it, so no cursor is used twice. -/
theorem cursor_propagation (sd ed : NaiveDate) (f g : Int → String)
    (outcomes : List StepOutcome) (c : Option String) (w : CsvWriter)
    (out : List String) (n : Nat) (req : ActivityRequest)
    (h : ((runLoop sd ed f g outcomes true c w out).requests)[n + 1]? =
      some req) :
    ∃ s, outcomes[n]? = some (.response (.Success s)) ∧
      req.pagination_option =
        s.pagination.next_cursor.map (fun cur => ⟨cur⟩) := by
  induction outcomes generalizing n c w out with
  | nil => simp [runLoop] at h
  | cons o rest ih =>
      cases o with
      | transportError => simp [runLoop] at h
      | decodeError => simp [runLoop] at h
      | response r =>
          cases r with
          | Failure d => simp [runLoop, runLoop_hm_false] at h
          | Success d =>
              simp only [runLoop] at h
              rw [List.getElem?_cons_succ] at h
              cases hhm : d.pagination.has_more_data with
              | false =>
                  rw [hhm, runLoop_hm_false] at h
                  simp at h
              | true =>
                  rw [hhm] at h
                  cases n with
                  | zero =>
                      rw [runLoop_requests_zero] at h
                      obtain rfl := Option.some_inj.mp h
                      exact ⟨d, by simp, rfl⟩
                  | succ m =>
                      obtain ⟨s, hs1, hs2⟩ := ih _ _ _ m h
                      exact ⟨s, by simpa using hs1, hs2⟩

/-- Witness for C4: in the concrete two-page run, request 1 exists and
carries cursor `"p2"`, the `next_cursor` of response 0. -/
theorem cursor_propagation_witness :
    ∃ s, outcomesB[0]? =
        some (StepOutcome.response (ActivityFeedResponse.Success s)) ∧
      ({ start_date_iso := date1, end_date_iso := date2,
         pagination_option := some ⟨"p2"⟩ } : ActivityRequest).pagination_option =
        s.pagination.next_cursor.map (fun cur => ⟨cur⟩) :=
  cursor_propagation date1 date2 exD exT outcomesB none emptyWriter [] 0
    { start_date_iso := date1, end_date_iso := date2,
      pagination_option := some ⟨"p2"⟩ } (by decide)

/-- Claim C5 (confirmed): on a sequence of `Success` responses whose
`has_more_data` is true for every response except the last and false in
the last, the loop issues exactly as many requests as there are
responses and stops. -/
theorem pagination_request_count (sd ed : NaiveDate) (f g : Int → String)
    (ss : List SuccessData) (c : Option String) (w : CsvWriter)
    (out : List String) (h1 : ss ≠ [])
    (h2 : ∀ s ∈ ss.dropLast, s.pagination.has_more_data = true)
    (h3 : ss.getLast?.map (fun s => s.pagination.has_more_data) =
      some false) :
    ((runLoop sd ed f g (ss.map fun s => .response (.Success s))
        true c w out).requests).length = ss.length := by
  induction ss generalizing c w out with
  | nil => exact absurd rfl h1
  | cons s rest ih =>
      cases rest with
      | nil =>
          have hs : s.pagination.has_more_data = false := by
            simpa using h3
          simp [runLoop, hs, runLoop_hm_false]
      | cons s2 rest2 =>
          have hs : s.pagination.has_more_data = true :=
            h2 s (by simp)
          have hcount := ih s.pagination.next_cursor
            (writePage f g w s.activities) out (by simp)
            (fun x hx => h2 x (by
              rw [List.dropLast_cons₂]
              exact List.mem_cons_of_mem s hx))
            (by rwa [List.getLast?_cons_cons] at h3)
          rw [List.map_cons, runLoop_success_requests, hs,
            List.length_cons, hcount]
          simp

/-- Witness for C5: the concrete two-page sequence (first page
`has_more_data = true`, second false) produces exactly two requests. -/
theorem pagination_request_count_witness :
    ((runLoop date1 date2 exD exT
        ([page1, page2].map fun s => .response (.Success s))
        true none emptyWriter []).requests).length =
      ([page1, page2] : List SuccessData).length :=
  pagination_request_count date1 date2 exD exT [page1, page2] none
    emptyWriter [] (by decide) (by decide) (by decide)

end UberEarnings
